import Mathlib

set_option maxRecDepth 100000

/-!
Verification of the PBR sample program (samples/sample_pbr.cpp).

The program is a command-line sample: it parses flags, optionally loads a
base-color texture and a packed metallic/roughness texture, assembles a
shader source string whose optional clauses depend on which textures
loaded, compiles a material, loads meshes, and hands control to the
engine's run loop with a setup and a cleanup callback.

External facilities (the rendering engine, the image decoder stbi_load,
the filesystem Path.exists, the getopt option scanner, and the C++
standard-library float conversion std::stof) are modelled as explicit
environments or as faithful Lean functions; everything else is translated
directly from the source.
-/

/-! ## Shader string assembly (setup, lines 192-218)

The C++ raw string literals are reproduced verbatim, including their
newlines and indentation. -/

/-- First raw string of `setup`: the shader header (source lines 192-195). -/
def shaderHead : String :=
  "\n        void material(inout MaterialInputs material) \x7b\n            prepareMaterial(material);\n    "

/-- Clause appended when `hasBaseColorMap` (source lines 198-200). -/
def bcSampleClause : String :=
  "\n            material.baseColor.rgb = texture(materialParams_baseColorMap, getUV0()).rgb;\n        "

/-- Clause appended when the base-color map is absent (source lines 202-204). -/
def bcConstClause : String :=
  "\n            material.baseColor.rgb = float3(1.0, 0.75, 0.94);\n        "

/-- Clause appended when `hasMetallicRoughnessMap` (source lines 207-211). -/
def mrSampleClause : String :=
  "\n            vec2 metallicRoughness = texture(materialParams_metallicRoughnessMap, getUV0()).rg;\n            material.metallic = metallicRoughness.x;\n            material.roughness = metallicRoughness.y;\n        "

/-- Clause appended when the metallic/roughness map is absent (source lines 213-216). -/
def mrConstClause : String :=
  "\n            material.metallic = 0.0;\n            material.roughness = 0.1;\n        "

/-- The shader string built by `setup` from the two texture feature flags
(source lines 192-218, ending with `shader += "\x7d\n"`). -/
def buildShader (hasBaseColorMap hasMetallicRoughnessMap : Bool) : String :=
  shaderHead
    ++ (if hasBaseColorMap then bcSampleClause else bcConstClause)
    ++ (if hasMetallicRoughnessMap then mrSampleClause else mrConstClause)
    ++ "\x7d\n"

/-- The base-color texture-sample clause text, used as a search needle. -/
def bcNeedle : String := "texture(materialParams_baseColorMap, getUV0())"

/-- The metallic/roughness texture-sample clause text, used as a search needle. -/
def mrNeedle : String := "texture(materialParams_metallicRoughnessMap, getUV0())"

/-- Does `pat` occur as a contiguous sublist of the second argument? -/
def subOccurs (pat : List Char) : List Char → Bool
  | [] => pat.isEmpty
  | c :: cs => pat.isPrefixOf (c :: cs) || subOccurs pat cs

/-- Substring test on strings, via the character lists. -/
def strHasSub (s pat : String) : Bool := subOccurs pat.toList s.toList

/-! ## Texture loading (`loadTexture`, lines 158-183)

The filesystem and the stb image decoder are modelled as an environment:
`pathExists` models `Path::exists`, and `decode` models `stbi_load`
returning the width and height on success and null on failure. -/

/-- An engine texture as configured by `loadTexture`: `levels(0xff)`,
format selected by the `sRGB` flag, image uploaded, mipmaps generated. -/
structure Texture where
  width : Nat
  height : Nat
  levels : Nat
  srgb : Bool
  imageSet : Bool
  mipmapsGenerated : Bool
deriving DecidableEq

/-- Environment for `loadTexture`: filesystem and image decoder. -/
structure TexEnv where
  pathExists : String → Bool
  decode : String → Option (Nat × Nat)

/-- Translation of `loadTexture` (source lines 158-183): given the path and
the current value of `*map`, return the new `*map` and the messages printed.
On an empty path nothing happens; on a missing path or a failed decode a
message is printed and `*map` is left unchanged; on success a texture is
built with `levels(0xff)`, the image is set and mipmaps are generated. -/
def loadTextureModel (env : TexEnv) (filePath : String) (map : Option Texture)
    (sRGB : Bool) : Option Texture × List String :=
  if filePath = "" then (map, [])
  else if env.pathExists filePath then
    match env.decode filePath with
    | some wh => (some ⟨wh.fst, wh.snd, 255, sRGB, true, true⟩, [])
    | none => (map, [String.append (String.append "The texture " filePath) " could not be loaded"])
  else (map, [String.append (String.append "The texture " filePath) " does not exist"])

/-- The texture paths taken from the command line (struct `PbrConfig`). -/
structure PbrConfig where
  metallicRoughnessMap : String
  baseColorMap : String
deriving DecidableEq

/-- Result of the texture-loading and shader-assembly part of `setup`
(source lines 186-218): the two texture pointers after `loadTexture`,
the messages printed, and the assembled shader string. -/
structure SetupResult where
  bcTex : Option Texture
  mrTex : Option Texture
  msgs : List String
  shader : String

/-- Translation of `setup` lines 186-218: `loadTexture` is called for the
base-color path (sRGB) and the packed metallic/roughness path (linear),
both starting from null pointers, then the shader is assembled from
`hasBaseColorMap = (g_baseColorMap != nullptr)` and
`hasMetallicRoughnessMap = (g_metallicRoughnessMap != nullptr)`. -/
def setupModel (env : TexEnv) (p : PbrConfig) : SetupResult :=
  ⟨(loadTextureModel env p.baseColorMap none true).fst,
   (loadTextureModel env p.metallicRoughnessMap none false).fst,
   (loadTextureModel env p.baseColorMap none true).snd
     ++ (loadTextureModel env p.metallicRoughnessMap none false).snd,
   buildShader (loadTextureModel env p.baseColorMap none true).fst.isSome
     (loadTextureModel env p.metallicRoughnessMap none false).fst.isSome⟩

/-! ## Scale parsing (`handleCommandLineArgments`, lines 119-127)

`std::stof` delegates to C `strtof`: skip leading whitespace, then parse
the longest initial substring that is a decimal floating-point literal
(optional sign, digits with an optional fractional part, optional
exponent). It throws `invalid_argument` when no conversion is possible
and `out_of_range` when the value exceeds the float range. The model
covers the decimal forms (hexadecimal and inf/nan spellings are not
modelled; the exact value is kept as a rational instead of being rounded
to binary32). -/

/-- The two exceptions `std::stof` can throw, both caught at lines 122-126. -/
inductive StofErr where
  | invalidArgument : StofErr
  | outOfRange : StofErr
deriving DecidableEq

/-- Whitespace characters skipped by `strtof` (the C `isspace` set). -/
def isSpaceChar (c : Char) : Bool :=
  c == ' ' || c == '\t' || c == '\n' || c == '\r' || c == Char.ofNat 11 || c == Char.ofNat 12

/-- Drop leading whitespace. -/
def skipSpaces : List Char → List Char
  | [] => []
  | c :: cs => if isSpaceChar c then skipSpaces cs else c :: cs

/-- Take an optional sign; returns whether the value is negated. -/
def takeSign : List Char → Bool × List Char
  | [] => (false, [])
  | c :: cs =>
      if c == '-' then (true, cs)
      else if c == '+' then (false, cs)
      else (false, c :: cs)

/-- Span of leading decimal digits. -/
def spanDigits : List Char → List Char × List Char
  | [] => ([], [])
  | c :: cs =>
      if c.isDigit then
        ((spanDigits cs).fst.cons c, (spanDigits cs).snd)
      else ([], c :: cs)

/-- Numeric value of a digit list. -/
def digitsVal (l : List Char) : Nat :=
  l.foldl (fun a c => a * 10 + (c.toNat - 48)) 0

/-- Take a fractional part: a decimal point followed by digits. -/
def takeFrac : List Char → List Char × List Char
  | [] => ([], [])
  | c :: cs => if c == '.' then spanDigits cs else ([], c :: cs)

/-- Value of an exponent part, if present: `e`/`E`, optional sign, digits.
When the digits are missing the exponent is not consumed and contributes 0. -/
def takeExp : List Char → Int
  | [] => 0
  | c :: cs =>
      if c == 'e' || c == 'E' then
        if ((spanDigits (takeSign cs).snd).fst).isEmpty then 0
        else if (takeSign cs).fst then -(digitsVal (spanDigits (takeSign cs).snd).fst : Int)
        else (digitsVal (spanDigits (takeSign cs).snd).fst : Int)
      else 0

/-- Exact value of a parsed decimal literal, as an unreduced fraction:
a numerator and a positive power-of-ten denominator. -/
def decNumDen (neg : Bool) (intDs fracDs : List Char) (e : Int) : Int × Nat :=
  if 0 ≤ e then
    ((if neg then -((digitsVal intDs * 10 ^ fracDs.length + digitsVal fracDs : Nat) : Int)
      else ((digitsVal intDs * 10 ^ fracDs.length + digitsVal fracDs : Nat) : Int))
        * (10 : Int) ^ e.toNat,
     10 ^ fracDs.length)
  else
    ((if neg then -((digitsVal intDs * 10 ^ fracDs.length + digitsVal fracDs : Nat) : Int)
      else ((digitsVal intDs * 10 ^ fracDs.length + digitsVal fracDs : Nat) : Int)),
     10 ^ fracDs.length * 10 ^ (-e).toNat)

/-- FLT_MAX, the largest finite binary32 value `(2 - 2^-23) * 2^127`,
as the exact natural number `2^128 - 2^104`. -/
def fltMaxNat : Nat := 2 ^ 128 - 2 ^ 104

/-- Parsing stage of `std::stof` on decimal inputs: parse the longest
initial decimal floating-point literal after optional whitespace, keeping
the value as an exact numerator/denominator pair; error `invalidArgument`
when no digit is found, `outOfRange` when the magnitude exceeds FLT_MAX. -/
def stofParsed (s : String) : Except StofErr (Int × Nat) :=
  let cs0 := skipSpaces s.toList
  let sgn := takeSign cs0
  let ip := spanDigits sgn.snd
  let fp := takeFrac ip.snd
  if ip.fst.isEmpty && fp.fst.isEmpty then
    Except.error StofErr.invalidArgument
  else
    let p := decNumDen sgn.fst ip.fst fp.fst (takeExp fp.snd)
    if p.fst.natAbs > fltMaxNat * p.snd then Except.error StofErr.outOfRange
    else Except.ok p

/-- Model of `std::stof`: the parsed fraction as a rational number (the
exact value is kept instead of being rounded to binary32). -/
def stofModel (s : String) : Except StofErr ℚ :=
  Except.map (fun p => (p.fst : ℚ) / (p.snd : ℚ)) (stofParsed s)

/-- Decidable equality of `stofModel` results, used to evaluate the model
on concrete inputs. -/
instance {ε α : Type} [DecidableEq ε] [DecidableEq α] : DecidableEq (Except ε α) :=
  fun a b =>
  match a, b with
  | Except.error e, Except.error f =>
      if h : e = f then Decidable.isTrue (by rw [h])
      else Decidable.isFalse (by intro hh; injection hh; contradiction)
  | Except.error _, Except.ok _ => Decidable.isFalse (by intro hh; injection hh)
  | Except.ok _, Except.error _ => Decidable.isFalse (by intro hh; injection hh)
  | Except.ok x, Except.ok y =>
      if h : x = y then Decidable.isTrue (by rw [h])
      else Decidable.isFalse (by intro hh; injection hh; contradiction)

/-- The app `Config` fields this file touches, with `scale` kept exact as a
rational (default 1.0, per the comments at lines 123 and 125). -/
structure Config where
  scale : ℚ
  iblDirectory : String
  splitView : Bool
  title : String
deriving DecidableEq

/-- The configuration before any flag is processed: scale 1.0. -/
def defaultConfig : Config := ⟨1, "", false, ""⟩

/-- Field update helpers (record assignments in the switch, lines 117-136). -/
def setScale (c : Config) (v : ℚ) : Config := ⟨v, c.iblDirectory, c.splitView, c.title⟩

def setIbl (c : Config) (s : String) : Config := ⟨c.scale, s, c.splitView, c.title⟩

def setSplitView (c : Config) : Config := ⟨c.scale, c.iblDirectory, true, c.title⟩

def setPacked (p : PbrConfig) (s : String) : PbrConfig := ⟨s, p.baseColorMap⟩

def setBaseColor (p : PbrConfig) (s : String) : PbrConfig := ⟨p.metallicRoughnessMap, s⟩

/-- Translation of the `'s'` case (source lines 119-127): try
`std::stof(arg)` and assign on success; both `invalid_argument` and
`out_of_range` are caught and the previous scale is kept. -/
def applyScaleArg (arg : String) (c : Config) : Config :=
  match stofModel arg with
  | Except.ok v => setScale c v
  | Except.error _ => c

/-! ## Option processing (`handleCommandLineArgments`, lines 96-141)

The external `getopt_long` scanner is modelled as delivering a stream of
option events; an unrecognized flag is delivered as `unknown` (getopt
returns a code outside the option set), which the switch's `default:`
label sends through the same branch as `'h'`. -/

/-- One option event delivered by the option scanner. -/
inductive OptEvent where
  | help : OptEvent
  | ibl : String → OptEvent
  | splitView : OptEvent
  | scale : String → OptEvent
  | packed : String → OptEvent
  | basecolor : String → OptEvent
  | unknown : OptEvent
deriving DecidableEq

/-- Result of the option loop: final configurations, whether the process
called `exit` (with which code), and whether the usage text was printed. -/
structure ArgsResult where
  config : Config
  pbr : PbrConfig
  exit : Option Nat
  usagePrinted : Bool
deriving DecidableEq

/-- Translation of the option loop of `handleCommandLineArgments` (source
lines 109-138): process events in order; `help` and any unknown flag print
the usage text and exit with code 0 (the `default:` label falls through to
`case 'h'`), ending processing. -/
def handleArgs : List OptEvent → Config → PbrConfig → ArgsResult
  | [], c, p => ⟨c, p, none, false⟩
  | OptEvent.help :: _, c, p => ⟨c, p, some 0, true⟩
  | OptEvent.unknown :: _, c, p => ⟨c, p, some 0, true⟩
  | OptEvent.ibl s :: rest, c, p => handleArgs rest (setIbl c s) p
  | OptEvent.scale s :: rest, c, p => handleArgs rest (applyScaleArg s c) p
  | OptEvent.splitView :: rest, c, p => handleArgs rest (setSplitView c) p
  | OptEvent.packed s :: rest, c, p => handleArgs rest c (setPacked p s)
  | OptEvent.basecolor s :: rest, c, p => handleArgs rest c (setBaseColor p s)

/-! ## `main` after flag parsing (lines 283-305)

After `handleCommandLineArgments` returns `optind`, the positional
arguments are `argv[option_index..argc)`. The filesystem is modelled by a
predicate. Note the loop at lines 291-298 prints `argv[option_index]` —
the first positional argument — whenever any `argv[i]` is missing. -/

/-- Outcome of `main` past the option parser: exit code, whether usage was
printed, the lines written to standard error, the files pushed onto
`g_filenames`, and whether control reached `filamentApp.run` (which runs
`setup`). -/
structure MainOutcome where
  exitCode : Nat
  usagePrinted : Bool
  stderrLines : List String
  filenames : List String
  ranSetup : Bool
deriving DecidableEq

/-- The loop of source lines 291-298: check each positional argument in
order, accumulating into `g_filenames`; on the first missing file, return
the message naming `firstArg` (the code prints `argv[option_index]`). -/
def checkLoop (firstArg : String) (ex : String → Bool) :
    List String → List String → List String × Option String
  | acc, [] => (acc, none)
  | acc, f :: fs =>
      if ex f then checkLoop firstArg ex (acc ++ [f]) fs
      else (acc, some (String.append (String.append "file " firstArg) " not found!"))

/-- Translation of `main` lines 283-305 given the positional arguments:
no positional argument prints usage and returns 1; a missing file prints
its message to standard error and returns 1 before `filamentApp.run`;
otherwise all files are collected and the run loop executes `setup`. -/
def mainModel (positional : List String) (ex : String → Bool) : MainOutcome :=
  match positional with
  | [] => ⟨1, true, [], [], false⟩
  | first :: rest =>
    match checkLoop first ex [] (first :: rest) with
    | (acc, some msg) => ⟨1, false, [msg], acc, false⟩
    | (acc, none) => ⟨0, false, [], acc, true⟩

/-! ## Resource pairing between `setup` and `cleanup` (lines 143-156, 185-281)

`setup` acquires: possibly the two textures (when their `loadTexture`
succeeded), the compiled material, one material instance stored under
"DefaultMaterial", the mesh set, and the light entity. `cleanup` destroys
every material instance in the map, resets the mesh set, destroys the
material and both texture pointers (`Engine::destroy` on a null pointer is
a no-op), and destroys the light entity (in the engine and the entity
manager, one entity). -/

/-- An engine resource acquired by this file. -/
inductive Res where
  | materialInstance : String → Res
  | material : Res
  | baseColorTex : Res
  | metallicRoughnessTex : Res
  | meshSet : Res
  | lightEntity : Res
deriving DecidableEq

/-- Resources acquired during `setup`, in acquisition order (lines 186-280),
given which of the two textures actually loaded. -/
def setupAcquired (hasBC hasMR : Bool) : List Res :=
  (if hasBC then [Res.baseColorTex] else [])
    ++ (if hasMR then [Res.metallicRoughnessTex] else [])
    ++ [Res.material, Res.materialInstance "DefaultMaterial", Res.meshSet, Res.lightEntity]

/-- The global handles as they stand after `setup`: the material-instance
map holds exactly "DefaultMaterial"; the texture pointers are non-null when
their texture loaded; material, mesh set and light are always present. -/
structure GState where
  materialInstances : List String
  bcTex : Bool
  mrTex : Bool
deriving DecidableEq

/-- The global state `setup` leaves behind (lines 241-280). -/
def setupGState (hasBC hasMR : Bool) : GState := ⟨["DefaultMaterial"], hasBC, hasMR⟩

/-- Resources destroyed by `cleanup`, in destruction order (lines 143-156):
each material instance in the map, the mesh set, the material, the
metallic/roughness texture, the base-color texture (null pointers destroy
nothing), and the light entity. -/
def cleanupDestroyed (s : GState) : List Res :=
  s.materialInstances.map Res.materialInstance
    ++ [Res.meshSet, Res.material]
    ++ (if s.mrTex then [Res.metallicRoughnessTex] else [])
    ++ (if s.bcTex then [Res.baseColorTex] else [])
    ++ [Res.lightEntity]

/-! ## Theorems -/

/-- Each optional shader clause is present exactly when its feature flag is
set: the iff over the two booleans of `buildShader`. -/
theorem shaderClauseFlags : ∀ b1 b2 : Bool,
    strHasSub (buildShader b1 b2) bcNeedle = b1 ∧
    strHasSub (buildShader b1 b2) mrNeedle = b2 := by decide

/-- C1: the shader body assembled by `setup` contains the base-color
texture-sample clause exactly when the base-color texture pointer is
non-null after `loadTexture`, and the metallic/roughness sample clause
exactly when the metallic/roughness texture pointer is non-null. -/
theorem setup_shader_clauses :
    ∀ (env : TexEnv) (p : PbrConfig),
      strHasSub (setupModel env p).shader bcNeedle = ((setupModel env p).bcTex).isSome ∧
      strHasSub (setupModel env p).shader mrNeedle = ((setupModel env p).mrTex).isSome := by
  intro env p
  exact shaderClauseFlags ((setupModel env p).bcTex).isSome ((setupModel env p).mrTex).isSome

/-- C2: when neither texture path is supplied, `setup` produces exactly the
fixed fallback shader text, with base color float3(1.0, 0.75, 0.94),
metallic 0.0 and roughness 0.1. -/
theorem fallback_shader_exact :
    ∀ env : TexEnv, (setupModel env ⟨"", ""⟩).shader =
      "\n        void material(inout MaterialInputs material) \x7b\n            prepareMaterial(material);\n    \n            material.baseColor.rgb = float3(1.0, 0.75, 0.94);\n        \n            material.metallic = 0.0;\n            material.roughness = 0.1;\n        \x7d\n" :=
  fun _ => rfl

/-- C3: an unparsable `--scale` argument (such as "abc") makes `std::stof`
throw `invalid_argument`; the exception is caught and the configuration —
in particular its scale, default 1.0 — is left unchanged. -/
theorem scale_invalid_keeps_default :
    stofModel "abc" = Except.error StofErr.invalidArgument ∧
    ∀ (arg : String) (c : Config) (e : StofErr),
      stofModel arg = Except.error e → applyScaleArg arg c = c := by
  refine ⟨by decide, ?_⟩
  intro arg c e h
  simp [applyScaleArg, h]

/-- Witness for C3: parsing `--scale=abc` from the default configuration
leaves the scale at 1.0. -/
theorem scale_invalid_keeps_default_w :
    (applyScaleArg "abc" defaultConfig).scale = 1 := by
  have h := scale_invalid_keeps_default.2 "abc" defaultConfig StofErr.invalidArgument
    scale_invalid_keeps_default.1
  rw [h]
  rfl

/-- C10: a `--scale` argument whose longest initial substring parses as a
float (such as "2.5abc") sets the scale to that prefix value; whenever the
model of `std::stof` returns a value, that value is assigned. -/
theorem scale_numeric_sets_value :
    stofModel "2.5abc" = Except.ok (5 / 2 : ℚ) ∧
    ∀ (arg : String) (v : ℚ) (c : Config),
      stofModel arg = Except.ok v → (applyScaleArg arg c).scale = v := by
  refine ⟨?_, ?_⟩
  · have h : stofParsed "2.5abc" = Except.ok (25, 10) := by decide
    unfold stofModel
    rw [h]
    simp only [Except.map]
    norm_num
  · intro arg v c h
    simp [applyScaleArg, h, setScale]

/-- Witness for C10: `--scale=2.5abc` sets the scale to 5/2. -/
theorem scale_numeric_sets_value_w :
    (applyScaleArg "2.5abc" defaultConfig).scale = 5 / 2 :=
  scale_numeric_sets_value.2 "2.5abc" (5 / 2) defaultConfig scale_numeric_sets_value.1

/-- C4: with zero positional arguments after flag parsing, `main` prints
the usage text and exits with code 1, running no setup. -/
theorem no_positional_prints_usage :
    ∀ ex : String → Bool, mainModel [] ex = ⟨1, true, [], [], false⟩ :=
  fun _ => rfl

/-- When some file in the remaining positional arguments is missing, the
check loop of `main` stops with the message naming `firstArg`. -/
theorem checkLoopStops :
    ∀ (rem : List String) (firstArg : String) (ex : String → Bool) (acc : List String),
      (∃ f, f ∈ rem ∧ ex f = false) →
      ∃ acc2, checkLoop firstArg ex acc rem =
        (acc2, some (String.append (String.append "file " firstArg) " not found!")) := by
  intro rem
  induction rem with
  | nil =>
    intro firstArg ex acc h
    obtain ⟨f, hf, _⟩ := h
    cases hf
  | cons g gs ih =>
    intro firstArg ex acc h
    cases hg : ex g with
    | false => exact ⟨acc, by simp [checkLoop, hg]⟩
    | true =>
      obtain ⟨f, hf, hfx⟩ := h
      rcases List.mem_cons.mp hf with heq | hmem
      · subst heq; rw [hg] at hfx; cases hfx
      · obtain ⟨acc2, h2⟩ := ih firstArg ex (acc ++ [g]) ⟨f, hmem, hfx⟩
        exact ⟨acc2, by simp [checkLoop, hg, h2]⟩

/-- C5: naming a nonexistent mesh path makes `main` print an error to
standard error and exit with code 1 before the run loop starts, so `setup`
never runs: no texture is loaded and no material is built. -/
theorem missing_mesh_exits_before_setup :
    ∀ (positional : List String) (ex : String → Bool),
      (∃ f, f ∈ positional ∧ ex f = false) →
      (mainModel positional ex).exitCode = 1 ∧
      (mainModel positional ex).ranSetup = false ∧
      (mainModel positional ex).stderrLines ≠ [] := by
  intro positional ex h
  match positional, h with
  | [], ⟨f, hf, _⟩ => cases hf
  | first :: rest, h =>
    obtain ⟨acc2, h2⟩ := checkLoopStops (first :: rest) first ex [] h
    simp [mainModel, h2]

/-- Witness for C5: a single nonexistent mesh path exits 1 with a message
and without running setup. -/
theorem missing_mesh_exits_before_setup_w :
    (mainModel ["nosuch.obj"] (fun _ => false)).exitCode = 1 ∧
    (mainModel ["nosuch.obj"] (fun _ => false)).ranSetup = false ∧
    (mainModel ["nosuch.obj"] (fun _ => false)).stderrLines ≠ [] :=
  missing_mesh_exits_before_setup ["nosuch.obj"] (fun _ => false)
    ⟨"nosuch.obj", by simp, rfl⟩

/-- C9: when the first positional file exists and a later one is missing,
the error message printed still names the first positional argument
(`argv[option_index]`), not the missing file, and the exit code is 1. -/
theorem error_names_first_positional :
    ∀ (p0 p1 : String) (ex : String → Bool),
      ex p0 = true → ex p1 = false →
      (mainModel [p0, p1] ex).stderrLines =
        [String.append (String.append "file " p0) " not found!"] ∧
      (mainModel [p0, p1] ex).exitCode = 1 := by
  intro p0 p1 ex h0 h1
  simp [mainModel, checkLoop, h0, h1]

/-- Witness for C9: with existing "a.obj" and missing "b.obj", the message
names "a.obj". -/
theorem error_names_first_positional_w :
    (mainModel ["a.obj", "b.obj"] (fun s => s == "a.obj")).stderrLines =
      ["file a.obj not found!"] ∧
    (mainModel ["a.obj", "b.obj"] (fun s => s == "a.obj")).exitCode = 1 :=
  error_names_first_positional "a.obj" "b.obj" (fun s => s == "a.obj")
    (by decide) (by decide)

/-- C6: `loadTexture` on a non-empty path: if the path is missing or
decoding fails, a message is printed and `*map` is left unchanged (the
call returns normally); if the path exists and decoding succeeds, a
texture is built with `levels(0xff)`, the image is uploaded and mipmaps
are generated. -/
theorem load_texture_cases :
    (∀ (env : TexEnv) (path : String) (m : Option Texture) (sRGB : Bool),
      path ≠ "" →
      (env.pathExists path = false ∨ env.decode path = none) →
      (loadTextureModel env path m sRGB).fst = m ∧
      (loadTextureModel env path m sRGB).snd ≠ []) ∧
    (∀ (env : TexEnv) (path : String) (m : Option Texture) (sRGB : Bool) (w h : Nat),
      path ≠ "" →
      env.pathExists path = true →
      env.decode path = some (w, h) →
      (loadTextureModel env path m sRGB).fst = some ⟨w, h, 255, sRGB, true, true⟩ ∧
      (loadTextureModel env path m sRGB).snd = []) := by
  constructor
  · intro env path m sRGB hne hfail
    rcases hfail with hmiss | hdec
    · simp [loadTextureModel, hne, hmiss]
    · cases hex : env.pathExists path with
      | false => simp [loadTextureModel, hne, hex]
      | true => simp [loadTextureModel, hne, hex, hdec]
  · intro env path m sRGB w h hne hex hdec
    simp [loadTextureModel, hne, hex, hdec]

/-- Witness for C6: a missing path leaves the pointer null and prints; a
decodable path builds the configured texture and prints nothing. -/
theorem load_texture_cases_w :
    ((loadTextureModel ⟨fun _ => false, fun _ => none⟩ "missing.png" none true).fst = none ∧
     (loadTextureModel ⟨fun _ => false, fun _ => none⟩ "missing.png" none true).snd ≠ []) ∧
    ((loadTextureModel ⟨fun _ => true, fun _ => some (2, 3)⟩ "ok.png" none true).fst =
        some ⟨2, 3, 255, true, true, true⟩ ∧
     (loadTextureModel ⟨fun _ => true, fun _ => some (2, 3)⟩ "ok.png" none true).snd = []) :=
  ⟨load_texture_cases.1 ⟨fun _ => false, fun _ => none⟩ "missing.png" none true
      (by decide) (Or.inl rfl),
   load_texture_cases.2 ⟨fun _ => true, fun _ => some (2, 3)⟩ "ok.png" none true 2 3
      (by decide) rfl rfl⟩

/-- C7: an invocation containing `--help`/`-h` or any unknown flag makes
the option loop print the usage text and exit with code 0, and no event
after the stopping flag is processed. -/
theorem help_or_unknown_exits_zero :
    (∀ (evs : List OptEvent) (c : Config) (p : PbrConfig),
      (OptEvent.help ∈ evs ∨ OptEvent.unknown ∈ evs) →
      (handleArgs evs c p).exit = some 0 ∧ (handleArgs evs c p).usagePrinted = true) ∧
    (∀ (evs1 evs2 : List OptEvent) (c : Config) (p : PbrConfig),
      handleArgs (evs1 ++ OptEvent.help :: evs2) c p =
        handleArgs (evs1 ++ [OptEvent.help]) c p) := by
  constructor
  · intro evs
    induction evs with
    | nil =>
      intro c p h
      rcases h with h | h <;> cases h
    | cons e rest ih =>
      intro c p h
      simp only [List.mem_cons] at h
      cases e with
      | help => exact ⟨rfl, rfl⟩
      | unknown => exact ⟨rfl, rfl⟩
      | ibl s =>
        simp only [handleArgs]
        apply ih
        rcases h with (heq | hmem) | (heq | hmem)
        · simp at heq
        · exact Or.inl hmem
        · simp at heq
        · exact Or.inr hmem
      | scale s =>
        simp only [handleArgs]
        apply ih
        rcases h with (heq | hmem) | (heq | hmem)
        · simp at heq
        · exact Or.inl hmem
        · simp at heq
        · exact Or.inr hmem
      | splitView =>
        simp only [handleArgs]
        apply ih
        rcases h with (heq | hmem) | (heq | hmem)
        · simp at heq
        · exact Or.inl hmem
        · simp at heq
        · exact Or.inr hmem
      | packed s =>
        simp only [handleArgs]
        apply ih
        rcases h with (heq | hmem) | (heq | hmem)
        · simp at heq
        · exact Or.inl hmem
        · simp at heq
        · exact Or.inr hmem
      | basecolor s =>
        simp only [handleArgs]
        apply ih
        rcases h with (heq | hmem) | (heq | hmem)
        · simp at heq
        · exact Or.inl hmem
        · simp at heq
        · exact Or.inr hmem
  · intro evs1
    induction evs1 with
    | nil => intro evs2 c p; rfl
    | cons e rest ih =>
      intro evs2 c p
      cases e with
      | help => rfl
      | unknown => rfl
      | ibl s => exact ih evs2 (setIbl c s) p
      | scale s => exact ih evs2 (applyScaleArg s c) p
      | splitView => exact ih evs2 (setSplitView c) p
      | packed s => exact ih evs2 c (setPacked p s)
      | basecolor s => exact ih evs2 c (setBaseColor p s)

/-- Witness for C7: a list with `--help` in the middle exits 0 with usage
printed. -/
theorem help_or_unknown_exits_zero_w :
    (handleArgs [OptEvent.splitView, OptEvent.help, OptEvent.ibl "x"]
        defaultConfig ⟨"", ""⟩).exit = some 0 ∧
    (handleArgs [OptEvent.splitView, OptEvent.help, OptEvent.ibl "x"]
        defaultConfig ⟨"", ""⟩).usagePrinted = true :=
  help_or_unknown_exits_zero.1 [OptEvent.splitView, OptEvent.help, OptEvent.ibl "x"]
    defaultConfig ⟨"", ""⟩ (Or.inl (by decide))

/-- C8: for every combination of loaded textures, the resources destroyed
by `cleanup` are exactly the resources acquired by `setup`, each destroyed
exactly once and nothing else. -/
theorem cleanup_destroys_setup_acquired :
    ∀ hasBC hasMR : Bool,
      List.Perm (cleanupDestroyed (setupGState hasBC hasMR)) (setupAcquired hasBC hasMR) ∧
      (cleanupDestroyed (setupGState hasBC hasMR)).Nodup := by
  decide
